import Mathlib

/-!
Shallow embedding of the go-poclient Pushover client library.

The Go code performs HTTP / WebSocket I/O; here every network interaction is
made explicit: each operation takes a `NetOutcome` oracle describing what the
network would have answered, and returns, besides its Go result values, a
trace of the externally visible events it performed (`fetchCall` for the
GET on messages.json, `ackCall mark` for the POST to
update_highest_message.json, `push m` for sending a message into the
`Messages` channel).  Pure Go functions become pure Lean functions.
-/

set_option linter.unusedVariables false
set_option linter.unnecessarySeqFocus false

namespace Poclient

/-- Model of Go `time.Time` values as they occur in this client: either the
zero value (a `time.Time` field that was never assigned; note `Date` carries
the JSON tag `json:"-"`, so decoding never sets it), or the instant produced
by `time.Unix(sec, 0)`. -/
inductive GoTime
  | zeroValue
  | unixSec (sec : Int)
  deriving DecidableEq, Repr

/-- `time.Unix(sec, 0)`. -/
def timeUnix (sec : Int) : GoTime := .unixSec sec

/-- The Unix epoch origin instant, `time.Unix(0, 0)`. -/
def epochOrigin : GoTime := timeUnix 0

/-- `Message` from types.go: a message loaded from the API. -/
structure Message where
  RelativeID : Int
  UniqueID : Int
  Title : String
  Text : String
  AppName : String
  AppID : Int
  IconID : String
  Timestamp : Int
  Date : GoTime
  Priority : Int
  Sound : String
  URL : String
  URLTitle : String
  Acknowledged : Bool
  ReceiptCode : String
  ContainsHTML : Bool
  deriving DecidableEq, Repr

/-- `user` struct from types.go. -/
structure user where
  ID : String
  Secret : String
  deriving DecidableEq, Repr

/-- `device` struct from types.go. -/
structure device where
  ID : String
  deriving DecidableEq, Repr

/-- `loginReply` from types.go. -/
structure loginReply where
  Status : Int
  Userid : String
  Secret : String
  Errors : List String
  deriving DecidableEq, Repr

/-- `devicesReply` from types.go; the Go `map[string][]string` of errors is
modelled as an association list. -/
structure devicesReply where
  Status : Int
  Deviceid : String
  Errors : List (String × List String)
  deriving DecidableEq, Repr

/-- `messagesReply` from types.go. -/
structure messagesReply where
  Status : Int
  Errors : List String
  Messages : List Message
  deriving DecidableEq, Repr

/-- `deleteOldMessagesReply` from types.go. -/
structure deleteOldMessagesReply where
  Status : Int
  Errors : List String
  deriving DecidableEq, Repr

/-- `Client` from poclient.go (the `Messages` channel is modelled through
`Event.push` entries in operation traces rather than as a field). -/
structure Client where
  loggedIn : Bool
  registered : Bool
  user : user
  device : device
  deriving DecidableEq, Repr

/-- `New` from poclient.go: a fresh client with default values. -/
def New : Client :=
  { loggedIn := false, registered := false, user := ⟨"", ""⟩, device := ⟨""⟩ }

/-- The distinct Go `error` values produced by the client. -/
inductive POError
  | notLoggedIn
  | deviceNotRegistered
  | alreadyLoggedIn
  | alreadyRegistered
  | nameTooLong
  | transport (msg : String)
  | jsonDecode (msg : String)
  | messagesBadStatus
  | remote (msg : String)
  | registerFailed (msg : String)
  | errorFrame
  | unexpectedMessage
  deriving DecidableEq, Repr

/-- The `Error()` string of each modelled Go error value. -/
def POError.message : POError → String
  | .notLoggedIn => "Not logged in"
  | .deviceNotRegistered => "Device not registered"
  | .alreadyLoggedIn => "Already logged in"
  | .alreadyRegistered => "Already registered"
  | .nameTooLong => "Name is too long"
  | .transport m => m
  | .jsonDecode m => m
  | .messagesBadStatus => "Getting messages led to a status != 1"
  | .remote m => m
  | .registerFailed m => m
  | .errorFrame => "Received error frame"
  | .unexpectedMessage => "Unexpected message received from API"

/-- Externally visible events of one client operation: the HTTP GET of
messages.json, the HTTP POST of update_highest_message.json with the
high-water mark it carries, and a send into the `Messages` channel. -/
inductive Event
  | fetchCall
  | ackCall (mark : Int)
  | push (msg : Message)
  deriving DecidableEq, Repr

/-- What the network answered to one HTTP request: transport failure
(the `http.Get` / `http.PostForm` call itself errors), a response whose body
fails JSON decoding, or a decoded reply value. -/
inductive NetOutcome (α : Type)
  | transportError (msg : String)
  | decodeError (msg : String)
  | reply (r : α)
  deriving DecidableEq, Repr

/-- The timestamp-parsing step of `GetMessages`:
`reply.Messages[i].Date = time.Unix(msg.Timestamp, 0)`. -/
def parseDate (m : Message) : Message :=
  { m with Date := timeUnix m.Timestamp }

/-- Result of `GetMessages`: the `([]Message, error)` pair plus the trace of
network events performed. -/
structure FetchResult where
  messages : List Message
  err : Option POError
  trace : List Event
  deriving DecidableEq, Repr

/-- `Client.GetMessages` from poclient.go. -/
def Client.GetMessages (p : Client) (net : NetOutcome messagesReply) : FetchResult :=
  if !p.loggedIn then ⟨[], some .notLoggedIn, []⟩
  else if !p.registered then ⟨[], some .deviceNotRegistered, []⟩
  else
    match net with
    | .transportError e => ⟨[], some (.transport e), [.fetchCall]⟩
    | .decodeError e => ⟨[], some (.jsonDecode e), [.fetchCall]⟩
    | .reply r =>
      if r.Status ≠ 1 then ⟨r.Messages, some .messagesBadStatus, [.fetchCall]⟩
      else ⟨r.Messages.map parseDate, none, [.fetchCall]⟩

/-- Result of an acknowledgment call: the Go `error` plus the trace of
network events performed. -/
structure AckResult where
  err : Option POError
  trace : List Event
  deriving DecidableEq, Repr

/-- `Client.DeleteMessagesByID` from poclient.go: POSTs the given highest ID
to update_highest_message.json.  Note the Go code performs no loggedIn /
registered precondition checks here. -/
def Client.DeleteMessagesByID (p : Client) (highestID : Int)
    (net : NetOutcome deleteOldMessagesReply) : AckResult :=
  match net with
  | .transportError e => ⟨some (.transport e), [.ackCall highestID]⟩
  | .decodeError e => ⟨some (.jsonDecode e), [.ackCall highestID]⟩
  | .reply r =>
    if r.Status = 0 then ⟨some (.remote (r.Errors.headD "")), [.ackCall highestID]⟩
    else ⟨none, [.ackCall highestID]⟩

/-- The highest-ID loop of `Client.DeleteOldMessages`:
`highestID := 0; for msg { if msg.RelativeID > highestID { highestID = msg.RelativeID } }`. -/
def computeHighestID (messages : List Message) : Int :=
  messages.foldl
    (fun highestID msg => if msg.RelativeID > highestID then msg.RelativeID else highestID) 0

/-- `Client.DeleteOldMessages` from poclient.go: finds the highest relative
ID and calls `DeleteMessagesByID`. -/
def Client.DeleteOldMessages (p : Client) (messages : List Message)
    (net : NetOutcome deleteOldMessagesReply) : AckResult :=
  p.DeleteMessagesByID (computeHighestID messages) net

/-- Result of `handleNotification`: the `(reconnect, err)` pair plus the
trace of events performed while handling the frame. -/
structure NotifResult where
  reconnect : Bool
  err : Option POError
  trace : List Event
  deriving DecidableEq, Repr

/-- `Client.handleNotification` from websocket.go: the frame interpreter.
It takes only the frame string (plus the oracles standing for what the
network would answer to the fetch and acknowledgment it may perform); it
keeps no history of previously received frames. -/
def Client.handleNotification (p : Client) (fetchNet : NetOutcome messagesReply)
    (ackNet : NetOutcome deleteOldMessagesReply) (message : String) : NotifResult :=
  if message = "#" then ⟨false, none, []⟩
  else if message = "!" then
    let f := p.GetMessages fetchNet
    match f.err with
    | some e => ⟨false, some e, f.trace⟩
    | none =>
      let a := p.DeleteOldMessages f.messages ackNet
      ⟨false, a.err, f.trace ++ f.messages.map Event.push ++ a.trace⟩
  else if message = "R" then ⟨true, none, []⟩
  else if message = "E" then ⟨false, some .errorFrame, []⟩
  else ⟨false, some .unexpectedMessage, []⟩

/-- Result of a state-mutating session operation: the updated client and the
Go `error`. -/
structure OpResult where
  client : Client
  err : Option POError
  deriving DecidableEq, Repr

/-- `Client.RestoreLogin` from poclient.go. -/
def Client.RestoreLogin (p : Client) (secret : String) (userid : String) : Client :=
  { p with user := ⟨userid, secret⟩, loggedIn := true }

/-- `Client.RestoreDevice` from poclient.go. -/
def Client.RestoreDevice (p : Client) (devid : String) : Client :=
  { p with device := ⟨devid⟩, registered := true }

/-- `Client.GetStatus` from poclient.go. -/
def Client.GetStatus (p : Client) : Bool × Bool :=
  (p.loggedIn, p.registered)

/-- `Client.Login` from poclient.go. -/
def Client.Login (p : Client) (email : String) (password : String)
    (net : NetOutcome loginReply) : OpResult :=
  if p.loggedIn then ⟨p, some .alreadyLoggedIn⟩
  else
    match net with
    | .transportError e => ⟨p, some (.transport e)⟩
    | .decodeError e => ⟨p, some (.jsonDecode e)⟩
    | .reply r =>
      if r.Status = 0 then ⟨p, some (.remote (r.Errors.headD ""))⟩
      else ⟨{ p with user := ⟨r.Userid, r.Secret⟩, loggedIn := true, registered := false }, none⟩

/-- The error-message concatenation loop of `RegisterDevice` over the
errors map. -/
def registerErrorMessage (errors : List (String × List String)) : String :=
  errors.foldl
    (fun acc et => et.2.foldl (fun a m => a ++ et.1 ++ " " ++ m ++ ", ") acc) ""

/-- `Client.RegisterDevice` from poclient.go. -/
def Client.RegisterDevice (p : Client) (name : String)
    (net : NetOutcome devicesReply) : OpResult :=
  if !p.loggedIn then ⟨p, some .notLoggedIn⟩
  else if p.registered then ⟨p, some .alreadyRegistered⟩
  else if name.utf8ByteSize > 25 then ⟨p, some .nameTooLong⟩
  else
    match net with
    | .transportError e => ⟨p, some (.transport e)⟩
    | .decodeError e => ⟨p, some (.jsonDecode e)⟩
    | .reply r =>
      if r.Status = 0 then ⟨p, some (.registerFailed (registerErrorMessage r.Errors))⟩
      else ⟨{ p with device := ⟨r.Deviceid⟩, registered := true }, none⟩

/-- `UnmarshalJSON` of `convertibleBoolean` from types.go, as a pure
function from the raw JSON token to the decoded boolean or an error. -/
def convertibleBoolean.UnmarshalJSON (data : String) : Except String Bool :=
  if data = "1" ∨ data = "true" then .ok true
  else if data = "0" ∨ data = "false" then .ok false
  else .error ("Boolean unmarshal error: invalid input " ++ data)

/-- The session-mutating operations named by the spec's session-state
invariant, each carrying the network oracle it needs. -/
inductive Op
  | login (email : String) (password : String) (net : NetOutcome loginReply)
  | registerDevice (name : String) (net : NetOutcome devicesReply)
  | restoreLogin (secret : String) (userid : String)
  | restoreDevice (devid : String)
  deriving DecidableEq, Repr

/-- Whether an operation is a `RestoreDevice` call. -/
def Op.isRestoreDevice : Op → Bool
  | .restoreDevice _ => true
  | _ => false

/-- Apply one session operation to a client (the Go methods mutate the
receiver; errors leave it unchanged). -/
def step (p : Client) : Op → Client
  | .login email password net => (p.Login email password net).client
  | .registerDevice name net => (p.RegisterDevice name net).client
  | .restoreLogin secret userid => p.RestoreLogin secret userid
  | .restoreDevice devid => p.RestoreDevice devid

/-- Run a sequence of session operations from a starting client state. -/
def run (p : Client) : List Op → Client
  | [] => p
  | op :: ops => run (step p op) ops

/-- The session-state invariant: `registered` implies `loggedIn`. -/
def inv (p : Client) : Prop := p.registered = true → p.loggedIn = true

/-- The high-water marks carried by the acknowledgment calls of a trace, in
order. -/
def sentAcks : List Event → List Int
  | [] => []
  | .ackCall m :: es => m :: sentAcks es
  | _ :: es => sentAcks es

/-- The number of fetch calls in a trace. -/
def fetchCount : List Event → Nat
  | [] => 0
  | .fetchCall :: es => fetchCount es + 1
  | _ :: es => fetchCount es

/-- The messages pushed into the `Messages` channel by a trace, in order. -/
def pushedMessages : List Event → List Message
  | [] => []
  | .push m :: es => m :: pushedMessages es
  | _ :: es => pushedMessages es

/-- A message whose only distinguishing feature is its relative ID; all
other fields hold their Go zero values. -/
def mkMsg (rid : Int) : Message :=
  ⟨rid, 0, "", "", "", 0, "", 0, .zeroValue, 0, "", "", "", false, "", false⟩

/-- A client that is logged in and device-registered. -/
def readyClient : Client :=
  { loggedIn := true, registered := true, user := ⟨"u", "s"⟩, device := ⟨"d"⟩ }

/-- A successful acknowledgment reply. -/
def okAck : NetOutcome deleteOldMessagesReply := .reply ⟨1, []⟩

/-- A successful fetch reply carrying two messages. -/
def okFetch : NetOutcome messagesReply := .reply ⟨1, [], [mkMsg 3, mkMsg 7]⟩

theorem max_step (h x : Int) : (if x > h then x else h) = max h x := by
  rw [max_def]; split_ifs <;> omega

theorem computeHighestID_go (l : List Message) (a : Int) :
    List.foldl
      (fun highestID msg => if msg.RelativeID > highestID then msg.RelativeID else highestID)
      a l = List.foldl (fun b m => max b m.RelativeID) a l := by
  induction l generalizing a with
  | nil => rfl
  | cons m l ih => simp only [List.foldl_cons, max_step, ih]

theorem computeHighestID_eq_foldl_max (msgs : List Message) :
    computeHighestID msgs = msgs.foldl (fun a m => max a m.RelativeID) 0 :=
  computeHighestID_go msgs 0

theorem le_foldl_max (l : List Message) (a : Int) :
    a ≤ l.foldl (fun b m => max b m.RelativeID) a := by
  induction l generalizing a with
  | nil => exact le_refl a
  | cons m l ih => exact le_trans (le_max_left a m.RelativeID) (ih (max a m.RelativeID))

theorem computeHighestID_nonneg (msgs : List Message) : 0 ≤ computeHighestID msgs := by
  rw [computeHighestID_eq_foldl_max]; exact le_foldl_max msgs 0

theorem DeleteMessagesByID_trace (p : Client) (highestID : Int)
    (net : NetOutcome deleteOldMessagesReply) :
    (p.DeleteMessagesByID highestID net).trace = [Event.ackCall highestID] := by
  cases net with
  | transportError e => rfl
  | decodeError e => rfl
  | reply r =>
    simp only [Client.DeleteMessagesByID]
    split <;> rfl

theorem DeleteOldMessages_trace (p : Client) (messages : List Message)
    (net : NetOutcome deleteOldMessagesReply) :
    (p.DeleteOldMessages messages net).trace = [Event.ackCall (computeHighestID messages)] :=
  DeleteMessagesByID_trace p (computeHighestID messages) net

theorem sentAcks_append (a b : List Event) :
    sentAcks (a ++ b) = sentAcks a ++ sentAcks b := by
  induction a with
  | nil => rfl
  | cons e a ih => cases e <;> simp [sentAcks, ih]

theorem sentAcks_map_push (l : List Message) : sentAcks (l.map Event.push) = [] := by
  induction l with
  | nil => rfl
  | cons m l ih => simpa [sentAcks] using ih

theorem fetchCount_append (a b : List Event) :
    fetchCount (a ++ b) = fetchCount a + fetchCount b := by
  induction a with
  | nil => simp [fetchCount]
  | cons e a ih => cases e <;> simp [fetchCount, ih] <;> omega

theorem fetchCount_map_push (l : List Message) : fetchCount (l.map Event.push) = 0 := by
  induction l with
  | nil => rfl
  | cons m l ih => simpa [fetchCount] using ih

/-- C2 counterexample: the acknowledgment mark is computed with a floor of 0
(the Go loop starts `highestID` at 0), so for a list whose only message has
`RelativeID = -1` the computed mark is 0, not the maximum RelativeID -1 of
the list. -/
theorem C2_counterexample :
    computeHighestID [mkMsg (-1)] = 0 ∧ (mkMsg (-1)).RelativeID = -1 ∧ (0 : Int) ≠ -1 := by
  decide

/-- C2 (amended): `DeleteOldMessages` computes the maximum of 0 and the
RelativeIDs of the list (the empty list thus yields 0, and the mark equals
the maximum RelativeID whenever some RelativeID is nonnegative), and sends
exactly that single value as the high-water mark; for the list
[{relativeID:3},{relativeID:7},{relativeID:5}] the computed mark is 7. -/
theorem C2_deleteOldMessages_mark (p : Client) (messages : List Message)
    (net : NetOutcome deleteOldMessagesReply) :
    (p.DeleteOldMessages messages net).trace = [Event.ackCall (computeHighestID messages)] ∧
    computeHighestID messages = messages.foldl (fun a m => max a m.RelativeID) 0 ∧
    computeHighestID [] = 0 ∧
    computeHighestID [mkMsg 3, mkMsg 7, mkMsg 5] = 7 :=
  ⟨DeleteOldMessages_trace p messages net, computeHighestID_eq_foldl_max messages,
   by decide, by decide⟩

/-- C6 counterexample: the client keeps no high-water state between
acknowledgment calls; after acknowledging the batch [{relativeID:7}] (mark
7), acknowledging the empty list sends a request with mark 0 < 7, so the
sequence of sent marks within a session is not non-decreasing. -/
theorem C6_counterexample :
    sentAcks ((readyClient.DeleteOldMessages [mkMsg 7] okAck).trace ++
        (readyClient.DeleteOldMessages [] okAck).trace) = [7, 0] ∧ (0 : Int) < 7 := by
  decide

/-- C6 (amended): each `DeleteOldMessages` call sends exactly one high-water
mark, computed purely from its own batch as the maximum of 0 and the batch's
RelativeIDs (hence always nonnegative, and 0 for the empty batch); the
client keeps no memory of previously sent marks, so successive marks need
not be non-decreasing — in particular acknowledging the empty list always
sends mark 0, however large a mark was previously sent. -/
theorem C6_ack_stateless (p : Client) (messages : List Message)
    (net : NetOutcome deleteOldMessagesReply) :
    sentAcks (p.DeleteOldMessages messages net).trace = [computeHighestID messages] ∧
    0 ≤ computeHighestID messages ∧
    computeHighestID [] = 0 := by
  refine ⟨?_, computeHighestID_nonneg messages, by decide⟩
  rw [DeleteOldMessages_trace]
  rfl

/-- C3 counterexample: on a freshly created client (not logged in, not
registered), `DeleteMessagesByID` (and hence `DeleteOldMessages`) performs
its network call anyway and reports no NotAuthenticated error. -/
theorem C3_counterexample :
    New.loggedIn = false ∧ New.registered = false ∧
    (New.DeleteMessagesByID 0 okAck).err = none ∧
    (New.DeleteMessagesByID 0 okAck).trace = [Event.ackCall 0] ∧
    (New.DeleteOldMessages [] okAck).trace = [Event.ackCall 0] := by
  decide

/-- C3 (amended): `GetMessages` fails with the NotLoggedIn error when the
client is not logged in and with the DeviceNotRegistered error when the
device is not registered, in either case without performing a network call;
`DeleteOldMessages` and `DeleteMessagesByID`, by contrast, perform no such
precondition checks and always issue their network call regardless of
session state. -/
theorem C3_sync_preconditions (p : Client) (net : NetOutcome messagesReply) :
    (p.loggedIn = false → p.GetMessages net = ⟨[], some POError.notLoggedIn, []⟩) ∧
    (p.loggedIn = true → p.registered = false →
      p.GetMessages net = ⟨[], some POError.deviceNotRegistered, []⟩) ∧
    (∀ highestID anet,
      (p.DeleteMessagesByID highestID anet).trace = [Event.ackCall highestID]) ∧
    (∀ messages anet,
      (p.DeleteOldMessages messages anet).trace
        = [Event.ackCall (computeHighestID messages)]) := by
  refine ⟨?_, ?_, fun highestID anet => DeleteMessagesByID_trace p highestID anet,
    fun messages anet => DeleteOldMessages_trace p messages anet⟩
  · intro h
    simp [Client.GetMessages, h]
  · intro h1 h2
    simp [Client.GetMessages, h1, h2]

/-- C3 witness: the `GetMessages` precondition branch at a concrete
not-logged-in client. -/
theorem C3_witness :
    New.loggedIn = false ∧
    New.GetMessages (NetOutcome.transportError "x")
      = ⟨[], some POError.notLoggedIn, []⟩ :=
  ⟨rfl, (C3_sync_preconditions New (NetOutcome.transportError "x")).1 rfl⟩

/-- C5 counterexample: `RestoreDevice` sets `registered` unconditionally, so
restoring a device on a freshly created client yields a state with
`registered = true` but `loggedIn = false`, violating the invariant. -/
theorem C5_counterexample :
    (New.RestoreDevice "d").registered = true ∧
    (New.RestoreDevice "d").loggedIn = false := by
  decide

theorem step_preserves_inv (p : Client) (op : Op) (h : inv p)
    (hop : op.isRestoreDevice = false) : inv (step p op) := by
  cases op with
  | login email password net =>
    by_cases hl : p.loggedIn = true
    · simp [step, Client.Login, hl]
      intro _
      exact hl
    · cases net with
      | transportError e => simpa [step, Client.Login, hl] using h
      | decodeError e => simpa [step, Client.Login, hl] using h
      | reply r =>
        by_cases hs : r.Status = 0
        · simpa [step, Client.Login, hl, hs] using h
        · simp [step, Client.Login, hl, hs, inv]
  | registerDevice name net =>
    by_cases hl : p.loggedIn = true
    · by_cases hr : p.registered = true
      · simpa [step, Client.RegisterDevice, hl, hr] using h
      · by_cases hn : name.utf8ByteSize > 25
        · simpa [step, Client.RegisterDevice, hl, hr, hn] using h
        · cases net with
          | transportError e => simpa [step, Client.RegisterDevice, hl, hr, hn] using h
          | decodeError e => simpa [step, Client.RegisterDevice, hl, hr, hn] using h
          | reply r =>
            by_cases hs : r.Status = 0
            · simpa [step, Client.RegisterDevice, hl, hr, hn, hs] using h
            · simp [step, Client.RegisterDevice, hl, hr, hn, hs, inv, hl]
    · simpa [step, Client.RegisterDevice, hl] using h
  | restoreLogin secret userid =>
    simp [step, Client.RestoreLogin, inv]
  | restoreDevice devid =>
    cases hop

theorem run_preserves_inv (ops : List Op) (p : Client) (hp : inv p)
    (h : ∀ op ∈ ops, op.isRestoreDevice = false) : inv (run p ops) := by
  induction ops generalizing p with
  | nil => exact hp
  | cons op ops ih =>
    exact ih (step p op)
      (step_preserves_inv p op hp (h op (List.mem_cons_self op ops)))
      (fun o ho => h o (List.mem_cons_of_mem op ho))

/-- C5 (amended): the invariant `registered → loggedIn` holds for the fresh
client and is preserved by `Login`, `RegisterDevice` and `RestoreLogin` from
any state; `RestoreDevice`, however, sets `registered` unconditionally, so
the invariant is only guaranteed after operation sequences from the fresh
client that contain no `RestoreDevice` call (it can be broken by a
`RestoreDevice` on a client that is not logged in). -/
theorem C5_inv_preserved (ops : List Op)
    (h : ∀ op ∈ ops, op.isRestoreDevice = false) :
    inv New ∧
    (∀ p op, inv p → op.isRestoreDevice = false → inv (step p op)) ∧
    inv (run New ops) :=
  ⟨fun hc => absurd hc (by decide),
   fun p op hp hop => step_preserves_inv p op hp hop,
   run_preserves_inv ops New (fun hc => absurd hc (by decide)) h⟩

/-- C5 witness: after a concrete restore-login followed by a device
registration the client is registered and, by the invariant, logged in. -/
theorem C5_witness :
    (run New [Op.restoreLogin "s" "u",
      Op.registerDevice "dev" (NetOutcome.reply ⟨1, "d", []⟩)]).loggedIn = true :=
  (C5_inv_preserved [Op.restoreLogin "s" "u",
      Op.registerDevice "dev" (NetOutcome.reply ⟨1, "d", []⟩)] (by decide)).2.2 (by decide)

theorem GetMessages_success (p : Client) (net : NetOutcome messagesReply)
    (h : (p.GetMessages net).err = none) :
    p.loggedIn = true ∧ p.registered = true ∧
    ∃ r, net = NetOutcome.reply r ∧ r.Status = 1 ∧
      p.GetMessages net = ⟨r.Messages.map parseDate, none, [Event.fetchCall]⟩ := by
  by_cases hl : p.loggedIn = true
  · by_cases hr : p.registered = true
    · cases net with
      | transportError e => simp [Client.GetMessages, hl, hr] at h
      | decodeError e => simp [Client.GetMessages, hl, hr] at h
      | reply r =>
        by_cases hs : r.Status = 1
        · exact ⟨hl, hr, r, rfl, hs, by simp [Client.GetMessages, hl, hr, hs]⟩
        · simp [Client.GetMessages, hl, hr, hs] at h
    · simp [Client.GetMessages, hl, hr] at h
  · simp [Client.GetMessages, hl] at h

theorem handleNotification_bang (p : Client) (fetchNet : NetOutcome messagesReply)
    (ackNet : NetOutcome deleteOldMessagesReply) :
    p.handleNotification fetchNet ackNet "!" =
      match (p.GetMessages fetchNet).err with
      | some e => ⟨false, some e, (p.GetMessages fetchNet).trace⟩
      | none =>
        ⟨false, (p.DeleteOldMessages (p.GetMessages fetchNet).messages ackNet).err,
          (p.GetMessages fetchNet).trace
            ++ (p.GetMessages fetchNet).messages.map Event.push
            ++ (p.DeleteOldMessages (p.GetMessages fetchNet).messages ackNet).trace⟩ := by
  simp [Client.handleNotification]

/-- C1 counterexample: for a logged-in, registered client whose fetch
attempt fails at the transport level, processing the "!" frame performs the
fetch but no acknowledgment, so "'!' triggers exactly one fetch followed by
one acknowledgment" does not hold for every run. -/
theorem C1_counterexample :
    (readyClient.handleNotification (NetOutcome.transportError "connection reset")
        okAck "!").trace = [Event.fetchCall] ∧
    sentAcks (readyClient.handleNotification (NetOutcome.transportError "connection reset")
        okAck "!").trace = [] ∧
    (readyClient.handleNotification (NetOutcome.transportError "connection reset")
        okAck "!").err = some (POError.transport "connection reset") := by
  decide

/-- C1 (amended): `handleNotification` is a pure function of the single
frame token (given the client state and the network oracles; it keeps no
history of previously received frames): "#" yields (reconnect=false, no
error) with no fetch, push or acknowledgment; "R" yields (reconnect=true,
no error); "E" yields the error-frame error; any other unrecognized token
yields the distinct unexpected-message protocol error; and "!" performs one
fetch attempt which, if it fails, returns its error with no acknowledgment,
and, if it succeeds, is followed by exactly one acknowledgment carrying the
batch's high-water mark. -/
theorem C1_handleNotification_cases (p : Client) (fetchNet : NetOutcome messagesReply)
    (ackNet : NetOutcome deleteOldMessagesReply) (message : String) :
    (p.handleNotification fetchNet ackNet "#" = ⟨false, none, []⟩) ∧
    (p.handleNotification fetchNet ackNet "R" = ⟨true, none, []⟩) ∧
    (p.handleNotification fetchNet ackNet "E" = ⟨false, some POError.errorFrame, []⟩) ∧
    (message ≠ "#" → message ≠ "!" → message ≠ "R" → message ≠ "E" →
      p.handleNotification fetchNet ackNet message
        = ⟨false, some POError.unexpectedMessage, []⟩) ∧
    (POError.unexpectedMessage ≠ POError.errorFrame) ∧
    (∀ e, (p.GetMessages fetchNet).err = some e →
      p.handleNotification fetchNet ackNet "!"
        = ⟨false, some e, (p.GetMessages fetchNet).trace⟩) ∧
    ((p.GetMessages fetchNet).err = none →
      fetchCount (p.handleNotification fetchNet ackNet "!").trace = 1 ∧
      sentAcks (p.handleNotification fetchNet ackNet "!").trace
        = [computeHighestID (p.GetMessages fetchNet).messages]) := by
  refine ⟨by simp [Client.handleNotification], by simp [Client.handleNotification],
    by simp [Client.handleNotification], ?_, by decide, ?_, ?_⟩
  · intro h1 h2 h3 h4
    simp [Client.handleNotification, h1, h2, h3, h4]
  · intro e he
    rw [handleNotification_bang, he]
  · intro h
    obtain ⟨hl, hr, r, rfl, hs, heq⟩ := GetMessages_success p fetchNet h
    rw [handleNotification_bang, h]
    simp only [heq, DeleteOldMessages_trace]
    constructor
    · rw [fetchCount_append, fetchCount_append, fetchCount_map_push]
      rfl
    · rw [sentAcks_append, sentAcks_append, sentAcks_map_push]
      rfl

/-- C1 witness: concrete instances of the hypothesis-guarded branches — an
unrecognized token "X" yields the distinct protocol error, and a successful
fetch is followed by exactly the batch's acknowledgment mark. -/
theorem C1_witness :
    readyClient.handleNotification okFetch okAck "X"
      = ⟨false, some POError.unexpectedMessage, []⟩ ∧
    sentAcks (readyClient.handleNotification okFetch okAck "!").trace
      = [computeHighestID (readyClient.GetMessages okFetch).messages] :=
  ⟨(C1_handleNotification_cases readyClient okFetch okAck "X").2.2.2.1
      (by decide) (by decide) (by decide) (by decide),
   ((C1_handleNotification_cases readyClient okFetch okAck "X").2.2.2.2.2.2
      (by decide)).2⟩

/-- C4: when the "!" frame is processed and the fetch succeeds, the trace of
the frame handler is exactly the fetch call, then one push per fetched
message in the order the fetch returned them, and only then the single
acknowledgment call for that batch — so delivery to the queue precedes
acknowledgment on the server for the same batch. -/
theorem C4_push_before_ack (p : Client) (fetchNet : NetOutcome messagesReply)
    (ackNet : NetOutcome deleteOldMessagesReply)
    (h : (p.GetMessages fetchNet).err = none) :
    (p.handleNotification fetchNet ackNet "!").trace =
      [Event.fetchCall] ++ (p.GetMessages fetchNet).messages.map Event.push ++
        [Event.ackCall (computeHighestID (p.GetMessages fetchNet).messages)] := by
  obtain ⟨hl, hr, r, rfl, hs, heq⟩ := GetMessages_success p fetchNet h
  rw [handleNotification_bang, h]
  simp only [heq, DeleteOldMessages_trace]

/-- C4 witness: the trace shape at a concrete client and fetch reply. -/
theorem C4_witness :
    (readyClient.GetMessages okFetch).err = none ∧
    (readyClient.handleNotification okFetch okAck "!").trace =
      [Event.fetchCall] ++ (readyClient.GetMessages okFetch).messages.map Event.push ++
        [Event.ackCall (computeHighestID (readyClient.GetMessages okFetch).messages)] :=
  ⟨by decide, C4_push_before_ack readyClient okFetch okAck (by decide)⟩

/-- C7: when the fetch response decodes but its remote status is not 1,
`GetMessages` returns the messages parsed from that response (possibly the
empty list) alongside the error rather than discarding them. -/
theorem C7_partial_messages (p : Client) (r : messagesReply)
    (h1 : p.loggedIn = true) (h2 : p.registered = true) (h3 : r.Status ≠ 1) :
    p.GetMessages (NetOutcome.reply r)
      = ⟨r.Messages, some POError.messagesBadStatus, [Event.fetchCall]⟩ := by
  simp [Client.GetMessages, h1, h2, h3]

/-- C7 witness: a concrete failure-status reply still yields its parsed
message alongside the error. -/
theorem C7_witness :
    readyClient.loggedIn = true ∧
    readyClient.GetMessages (NetOutcome.reply ⟨0, ["e"], [mkMsg 3]⟩)
      = ⟨[mkMsg 3], some POError.messagesBadStatus, [Event.fetchCall]⟩ :=
  ⟨rfl, C7_partial_messages readyClient ⟨0, ["e"], [mkMsg 3]⟩ rfl rfl (by decide)⟩

/-- C8: the boolean deserialization accepts exactly the four tokens 0, 1,
true, false — mapping 1 and true to true, and 0 and false to false — and
returns a deserialization error (no decoded value) for every other token. -/
theorem C8_convertibleBoolean (s : String) :
    (convertibleBoolean.UnmarshalJSON s = Except.ok true ↔ (s = "1" ∨ s = "true")) ∧
    (convertibleBoolean.UnmarshalJSON s = Except.ok false ↔ (s = "0" ∨ s = "false")) ∧
    ((convertibleBoolean.UnmarshalJSON s).toOption = none ↔
      ¬(s = "0" ∨ s = "1" ∨ s = "true" ∨ s = "false")) := by
  by_cases h0 : s = "0" <;> by_cases h1 : s = "1" <;>
    by_cases ht : s = "true" <;> by_cases hf : s = "false" <;>
    simp_all [convertibleBoolean.UnmarshalJSON, Except.toOption]

/-- C8 witness: concrete applications — "1" decodes to true and the
out-of-range token "2" fails deserialization. -/
theorem C8_witness :
    convertibleBoolean.UnmarshalJSON "1" = Except.ok true ∧
    (convertibleBoolean.UnmarshalJSON "2").toOption = none :=
  ⟨(C8_convertibleBoolean "1").1.mpr (Or.inl rfl),
   (C8_convertibleBoolean "2").2.2.mpr (by decide)⟩

/-- C9: a successful `Login` sets `loggedIn`, stores the returned user ID
and secret, and resets `registered` to false, clearing any previously
established or restored device registration; `RestoreLogin` sets `loggedIn`
and the credentials while leaving `registered` and the device ID
unchanged. -/
theorem C9_login_restoreLogin (p : Client) (email password secret userid : String)
    (net : NetOutcome loginReply)
    (h : (p.Login email password net).err = none) :
    ((p.Login email password net).client.loggedIn = true ∧
     (p.Login email password net).client.registered = false ∧
     ∃ r, net = NetOutcome.reply r ∧
       (p.Login email password net).client.user = ⟨r.Userid, r.Secret⟩) ∧
    ((p.RestoreLogin secret userid).loggedIn = true ∧
     (p.RestoreLogin secret userid).registered = p.registered ∧
     (p.RestoreLogin secret userid).device = p.device ∧
     (p.RestoreLogin secret userid).user = ⟨userid, secret⟩) := by
  refine ⟨?_, rfl, rfl, rfl, rfl⟩
  by_cases hl : p.loggedIn = true
  · simp [Client.Login, hl] at h
  · cases net with
    | transportError e => simp [Client.Login, hl] at h
    | decodeError e => simp [Client.Login, hl] at h
    | reply r =>
      by_cases hs : r.Status = 0
      · simp [Client.Login, hl, hs] at h
      · exact ⟨by simp [Client.Login, hl, hs], by simp [Client.Login, hl, hs],
          r, rfl, by simp [Client.Login, hl, hs]⟩

/-- C9 witness: a concrete successful login on a fresh client that had a
restored device registration. -/
theorem C9_witness :
    ((New.RestoreDevice "d").Login "e" "p"
        (NetOutcome.reply ⟨1, "uid", "sec", []⟩)).err = none ∧
    ((New.RestoreDevice "d").Login "e" "p"
        (NetOutcome.reply ⟨1, "uid", "sec", []⟩)).client.registered = false :=
  ⟨by decide,
   ((C9_login_restoreLogin (New.RestoreDevice "d") "e" "p" "s" "u"
      (NetOutcome.reply ⟨1, "uid", "sec", []⟩) (by decide)).1).2.1⟩

/-- C10: the Date field is derived from the epoch Timestamp only on the
fetch success path — on a remote-failure-status reply every returned message
still holds the Go zero value in Date (decoding never sets it, as Date is
tagged json:"-"), while on success every returned message has Date equal to
`time.Unix(Timestamp, 0)`, with Timestamp 0 mapping to the epoch origin. -/
theorem C10_date_only_on_success (p : Client) (r : messagesReply)
    (h1 : p.loggedIn = true) (h2 : p.registered = true)
    (hdec : ∀ m ∈ r.Messages, m.Date = GoTime.zeroValue) :
    (r.Status ≠ 1 →
      ∀ m ∈ (p.GetMessages (NetOutcome.reply r)).messages, m.Date = GoTime.zeroValue) ∧
    (r.Status = 1 →
      (p.GetMessages (NetOutcome.reply r)).messages = r.Messages.map parseDate ∧
      (∀ m ∈ (p.GetMessages (NetOutcome.reply r)).messages,
        m.Date = timeUnix m.Timestamp) ∧
      (∀ m ∈ (p.GetMessages (NetOutcome.reply r)).messages,
        m.Timestamp = 0 → m.Date = epochOrigin)) := by
  constructor
  · intro hs
    simpa [Client.GetMessages, h1, h2, hs] using hdec
  · intro hs
    have hmsg : (p.GetMessages (NetOutcome.reply r)).messages = r.Messages.map parseDate := by
      simp [Client.GetMessages, h1, h2, hs]
    refine ⟨hmsg, ?_, ?_⟩
    · rw [hmsg]
      intro m hm
      rcases List.mem_map.mp hm with ⟨m0, _, rfl⟩
      rfl
    · rw [hmsg]
      intro m hm ht
      rcases List.mem_map.mp hm with ⟨m0, _, rfl⟩
      simp only [parseDate] at ht ⊢
      rw [ht]
      rfl

/-- C10 witness: at a concrete failure-status reply the returned message
still has the zero-value Date, and at a concrete success reply the Date is
the epoch conversion of the timestamp. -/
theorem C10_witness :
    readyClient.loggedIn = true ∧ (mkMsg 3).Date = GoTime.zeroValue ∧
    (parseDate (mkMsg 3)).Date = timeUnix (parseDate (mkMsg 3)).Timestamp :=
  ⟨rfl,
   (C10_date_only_on_success readyClient ⟨0, [], [mkMsg 3]⟩ rfl rfl (by decide)).1
     (by decide) (mkMsg 3) (by decide),
   ((C10_date_only_on_success readyClient ⟨1, [], [mkMsg 3]⟩ rfl rfl (by decide)).2
     rfl).2.1 (parseDate (mkMsg 3)) (by decide)⟩

end Poclient
